import Mathlib

/-!
Verification development for the `location-api` repository (`src/server.js`
and an earlier unnamed variant of the same server).

The server is an Express application with three routes:

* `GET /location/:id` — serves a static HTML capture page;
* `GET /api/generate-link` — returns `{ link: "https://<host>/location/<uuid>" }`;
* `POST /api/geocode/:id` — validates `latitude`/`longitude` from the JSON
  body, calls the geocoding provider, and reshapes its first result.

We embed the route handlers as pure Lean functions.  Request-level inputs
(the parsed JSON body, the host header, the random UUID draw, the provider
response) become explicit parameters; the HTTP response becomes an explicit
`Response` value.
-/

namespace LocationApi

/-! ## JSON / JavaScript value model

`express.json()` parses the request body, so the destructured `latitude` and
`longitude` are JSON values, or `undefined` when the field is absent.  We
model the primitive JSON values; an absent field is `Option.none`. -/

inductive JsPrim where
  | num (q : ℚ)
  | str (s : String)
  | boolean (b : Bool)
  | null
deriving DecidableEq

/-- The result of JavaScript `Number(·)` coercion: a finite value, an
infinity, or `NaN`. -/
inductive JsNum where
  | val (q : ℚ)
  | posInf
  | negInf
  | nan
deriving DecidableEq

/-- Characters stripped by JS `Number(string)` coercion (ASCII whitespace
and line terminators; the common subset of the WhiteSpace production). -/
def isJsWhitespace (c : Char) : Bool :=
  c = ' ' || c = '\t' || c = '\n' || c = '\r' || c = '\x0b' || c = '\x0c'

def jsTrim (s : String) : List Char :=
  ((s.data.dropWhile isJsWhitespace).reverse.dropWhile isJsWhitespace).reverse

def decDigit? (c : Char) : Option Nat :=
  if c.isDigit then some (c.toNat - 48) else none

def hexDigitVal? (c : Char) : Option Nat :=
  if c.isDigit then some (c.toNat - 48)
  else if 'a' ≤ c ∧ c ≤ 'f' then some (c.toNat - 97 + 10)
  else if 'A' ≤ c ∧ c ≤ 'F' then some (c.toNat - 65 + 10)
  else none

/-- Interpret a nonempty digit string in base `b`, `none` on a bad digit. -/
def digitsToNat (digit? : Char → Option Nat) (b : Nat) : List Char → Option Nat
  | [] => none
  | cs =>
    cs.foldl
      (fun acc c =>
        match acc, digit? c with
        | some n, some d => some (b * n + d)
        | _, _ => none)
      (some 0)

/-- Mantissa of a decimal numeric string: `digits`, `digits.digits`,
`digits.` or `.digits`. -/
def parseDecMantissa (cs : List Char) : Option ℚ :=
  let intPart := cs.takeWhile Char.isDigit
  let rest := cs.dropWhile Char.isDigit
  match rest with
  | [] => (digitsToNat decDigit? 10 intPart).map (fun n => (n : ℚ))
  | '.' :: frac =>
    if frac.all Char.isDigit ∧ (intPart ≠ [] ∨ frac ≠ []) then
      let i := (digitsToNat decDigit? 10 intPart).getD 0
      let f := (digitsToNat decDigit? 10 frac).getD 0
      some ((i : ℚ) + (f : ℚ) / (10 : ℚ) ^ frac.length)
    else none
  | _ => none

/-- Split a character list at the first `e`/`E`. -/
def splitAtExp : List Char → List Char × Option (List Char)
  | [] => ([], none)
  | c :: cs =>
    if c = 'e' ∨ c = 'E' then ([], some cs)
    else
      let (a, b) := splitAtExp cs
      (c :: a, b)

def parseExponent (cs : List Char) : Option Int :=
  match cs with
  | '+' :: ds => (digitsToNat decDigit? 10 ds).map Int.ofNat
  | '-' :: ds => (digitsToNat decDigit? 10 ds).map (fun n => -(n : Int))
  | ds => (digitsToNat decDigit? 10 ds).map Int.ofNat

/-- A decimal literal with optional exponent, or `Infinity` — the signable
forms of a JS numeric string. -/
def parseSignable (cs : List Char) : Option JsNum :=
  if cs = "Infinity".data then some JsNum.posInf
  else
    let (mant, expo) := splitAtExp cs
    match expo with
    | none => (parseDecMantissa mant).map JsNum.val
    | some e =>
      match parseDecMantissa mant, parseExponent e with
      | some m, some x => some (JsNum.val (m * (10 : ℚ) ^ x))
      | _, _ => none

/-- Unsigned non-decimal literals: `0x…`, `0o…`, `0b…`. -/
def parseNonDecimal (cs : List Char) : Option JsNum :=
  match cs with
  | '0' :: p :: ds =>
    if p = 'x' ∨ p = 'X' then (digitsToNat hexDigitVal? 16 ds).map (fun n => JsNum.val (n : ℚ))
    else if p = 'o' ∨ p = 'O' then (digitsToNat decDigit? 8 ds).map (fun n => JsNum.val (n : ℚ))
    else if p = 'b' ∨ p = 'B' then (digitsToNat decDigit? 2 ds).map (fun n => JsNum.val (n : ℚ))
    else none
  | _ => none

def negJsNum : JsNum → JsNum
  | JsNum.val q => JsNum.val (-q)
  | JsNum.posInf => JsNum.negInf
  | JsNum.negInf => JsNum.posInf
  | JsNum.nan => JsNum.nan

/-- JS `Number(string)`: trim, empty means `0`, otherwise an optionally
signed decimal/`Infinity` literal or an unsigned radix literal; anything
else is `NaN`. -/
def jsStringToNumber (s : String) : JsNum :=
  match jsTrim s with
  | [] => JsNum.val 0
  | '+' :: r => (parseSignable r).getD JsNum.nan
  | '-' :: r => ((parseSignable r).map negJsNum).getD JsNum.nan
  | cs =>
    match parseNonDecimal cs with
    | some n => n
    | none => (parseSignable cs).getD JsNum.nan

/-- JS `Number(·)` on a JSON primitive. -/
def jsToNumber : JsPrim → JsNum
  | JsPrim.num q => JsNum.val q
  | JsPrim.str s => jsStringToNumber s
  | JsPrim.boolean b => JsNum.val (if b then 1 else 0)
  | JsPrim.null => JsNum.val 0

/-- JS truthiness of a JSON primitive (`!v` is the negation of this). -/
def jsTruthy : JsPrim → Bool
  | JsPrim.num q => if q = 0 then false else true
  | JsPrim.str s => if s = "" then false else true
  | JsPrim.boolean b => b
  | JsPrim.null => false

/-- JS global `isNaN(v)`: coerce to number and test for `NaN`. -/
def jsIsNaN (v : JsPrim) : Bool :=
  match jsToNumber v with
  | JsNum.nan => true
  | _ => false

/-! ## The geocode route

`POST /api/geocode/:id` (src/server.js lines 122–163).  The provider call
`geocoder.reverse` is modelled by an explicit `ProviderOutcome` argument:
either it throws (caught by the handler's `catch`) or it returns a result
array (possibly `null`/`undefined`, modelled by `Option`). -/

/-- One entry of the node-geocoder result array; the handler reads
`formatted`, `street`, `city`, `state`, `postcode`, `country`, each of
which may be absent. -/
structure GeoResult where
  formatted : Option String
  street : Option String
  city : Option String
  state : Option String
  postcode : Option String
  country : Option String
deriving DecidableEq

inductive ProviderOutcome where
  | throws (msg : String)
  | returns (result : Option (List GeoResult))
deriving DecidableEq

/-- The JSON (or HTML) body of a response, by shape.  `geocodeOk` carries
exactly the eight fields of the success payload. -/
inductive ResBody where
  | errorBody (error : String)
  | errorDetails (error : String) (details : String)
  | geocodeOk (latitude longitude : JsPrim)
      (formattedAddress street city state postcode country : String)
  | htmlBody (s : String)
  | linkBody (link : String)
deriving DecidableEq

structure Response where
  status : Nat
  body : ResBody
deriving DecidableEq

/-- JS `v || d` for an optional string field: absent and `""` are falsy. -/
def orFalsy (v : Option String) (d : String) : String :=
  match v with
  | some s => if s = "" then d else s
  | none => d

/-- The `POST /api/geocode/:id` handler.  `latitude`/`longitude` are the
destructured body fields (`none` = absent); `provider` is the outcome of
`geocoder.reverse`. -/
def geocodeHandler (latitude longitude : Option JsPrim)
    (provider : ProviderOutcome) : Response :=
  match latitude, longitude with
  | some lat, some lon =>
    if !jsTruthy lat || !jsTruthy lon || jsIsNaN lat || jsIsNaN lon then
      ⟨400, ResBody.errorBody "Invalid or missing coordinates"⟩
    else
      match provider with
      | ProviderOutcome.throws msg =>
        ⟨500, ResBody.errorDetails "Failed to geocode location" msg⟩
      | ProviderOutcome.returns none =>
        ⟨404, ResBody.errorBody "Address not found"⟩
      | ProviderOutcome.returns (some []) =>
        ⟨404, ResBody.errorBody "Address not found"⟩
      | ProviderOutcome.returns (some (r :: _)) =>
        ⟨200, ResBody.geocodeOk lat lon
          (orFalsy r.formatted "Address not found")
          (orFalsy r.street "") (orFalsy r.city "") (orFalsy r.state "")
          (orFalsy r.postcode "") (orFalsy r.country "")⟩
  | _, _ => ⟨400, ResBody.errorBody "Invalid or missing coordinates"⟩

/-- The validation guard of the handler, as a Boolean: the provider is
called exactly when this holds. -/
def coordsValid (latitude longitude : Option JsPrim) : Bool :=
  match latitude, longitude with
  | some lat, some lon =>
    !(!jsTruthy lat || !jsTruthy lon || jsIsNaN lat || jsIsNaN lon)
  | _, _ => false

/-! ## The location page route

`GET /location/:id` (src/server.js lines 39-105).  The handler sends one
fixed HTML document with the path parameter interpolated at exactly two
places inside the client script; no validation of the id is performed.
`locationHtmlA`, `locationHtmlB`, `locationHtmlC` are the literal pieces of
the template around the two interpolation points (escape sequences of the
JS template literal already evaluated). -/

def locationHtmlA : String :=
  "\n      <!DOCTYPE html>\n      <html lang=\"en\">\n      <head>\n        <meta charset=\"UTF-8\">\n        <meta name=\"viewport\" content=\"width=device-width, initial-scale=1.0\">\n        <title>Get Location</title>\n      </head>\n      <body>\n        <h1>Share Your Location</h1>\n        <p id=\"status\">Requesting location...</p>\n        <p id=\"location\"></p>\n        <p>Powered by Geoapify. Data © OpenStreetMap contributors, ODbL 1.0. <a href=\"http://osm.org/copyright\">Learn more</a>.</p>\n        <script>\n          async function fetchGeocodeWithDelay(latitude, longitude, uniqueId) \x7b\n            await new Promise(resolve => setTimeout(resolve, 1000));\n            try \x7b\n              const response = await fetch(\x27/api/geocode/"

def locationHtmlB : String :=
  "\x27, \x7b\n                method: \x27POST\x27,\n                headers: \x7b \x27Content-Type\x27: \x27application/json\x27 \x7d,\n                body: JSON.stringify(\x7b latitude, longitude \x7d)\n              \x7d);\n              if (!response.ok) \x7b\n                throw new Error(\x27Failed to fetch address: \x27 + response.statusText);\n              \x7d\n              const data = await response.json();\n              document.getElementById(\x27location\x27).textContent = \n                `Location: Latitude $\x7blatitude\x7d, Longitude $\x7blongitude\x7d, Address: $\x7bdata.formattedAddress\x7d\nDetails: Street: $\x7bdata.street\x7d, City: $\x7bdata.city\x7d, State: $\x7bdata.state\x7d, Postcode: $\x7bdata.postcode\x7d, Country: $\x7bdata.country\x7d`;\n              document.getElementById(\x27status\x27).textContent = \x27Location fetched!\x27;\n            \x7d catch (error) \x7b\n              console.error(\x27Client-side: Error fetching address:\x27, error.message);\n              document.getElementById(\x27status\x27).textContent = \x27Error: \x27 + error.message;\n            \x7d\n          \x7d\n\n          if (navigator.geolocation) \x7b\n            navigator.geolocation.getCurrentPosition(\n              async (position) => \x7b\n                const \x7b latitude, longitude \x7d = position.coords;\n                console.log(\x27Client-side: Location obtained\x27, latitude, longitude);\n                document.getElementById(\x27status\x27).textContent = \x27Fetching address...\x27;\n                fetchGeocodeWithDelay(latitude, longitude, \x27"

def locationHtmlC : String :=
  "\x27);\n              \x7d,\n              (error) => \x7b\n                console.error(\x27Client-side: Geolocation error:\x27, error.message);\n                document.getElementById(\x27status\x27).textContent = \x27Error: \x27 + error.message;\n              \x7d\n            );\n          \x7d else \x7b\n            console.error(\x27Client-side: Geolocation not supported by browser\x27);\n            document.getElementById(\x27status\x27).textContent = \x27Geolocation is not supported by this browser.\x27;\n          \x7d\n        </script>\n      </body>\n      </html>\n    "

/-- The HTML document served by `GET /location/:id`: the template with the
path id interpolated at its two occurrences in the client script. -/
def locationPage (uniqueId : String) : String :=
  locationHtmlA ++ uniqueId ++ locationHtmlB ++ uniqueId ++ locationHtmlC

/-- The `GET /location/:id` handler: sends the page with status 200 for
every id. -/
def locationHandler (uniqueId : String) : Response :=
  ⟨200, ResBody.htmlBody (locationPage uniqueId)⟩

/-! ## The generate-link route

`GET /api/generate-link` (src/server.js lines 108-119). -/

def hexChar (n : Nat) : Char :=
  if n < 10 then Char.ofNat (48 + n) else Char.ofNat (87 + n)

/-- Two lowercase hex digits of a byte. -/
def byteToHex (n : Nat) : String :=
  String.mk [hexChar (n / 16 % 16), hexChar (n % 16)]

/-- Modelled from the uuid package used by the server: `uuidv4()` formats
16 random bytes as 8-4-4-4-12 lowercase hex, forcing the version nibble of
byte 6 to 4 and the RFC 4122 variant bits of byte 8. -/
def uuidv4 (b : Fin 16 → Nat) : String :=
  byteToHex (b 0) ++ byteToHex (b 1) ++ byteToHex (b 2) ++ byteToHex (b 3) ++ "-" ++
  byteToHex (b 4) ++ byteToHex (b 5) ++ "-" ++
  byteToHex (b 6 % 16 + 64) ++ byteToHex (b 7) ++ "-" ++
  byteToHex (b 8 % 64 + 128) ++ byteToHex (b 9) ++ "-" ++
  byteToHex (b 10) ++ byteToHex (b 11) ++ byteToHex (b 12) ++ byteToHex (b 13) ++
  byteToHex (b 14) ++ byteToHex (b 15)

/-- The link template of the handler:
`https://<host>/location/<uniqueId>`. -/
def mkLink (host uniqueId : String) : String :=
  "https://" ++ host ++ "/location/" ++ uniqueId

/-- The `GET /api/generate-link` handler; `host` is the request host
header, `b` the random byte draw consumed by `uuidv4()`. -/
def generateLinkHandler (host : String) (b : Fin 16 → Nat) : Response :=
  ⟨200, ResBody.linkBody (mkLink host (uuidv4 b))⟩

/-! ## The client-side Google Maps variant

The earlier variant (src/unnamed/part_000, second document, lines 202-255)
geocodes in the browser and categorizes `address_components` of the first
result by their `types` tags. -/

structure AddressComponent where
  long_name : String
  types : List String
deriving DecidableEq

structure ClientAddressDetails where
  formattedAddress : String
  street : String
  city : String
  state : String
  postcode : String
  country : String
deriving DecidableEq

/-- One iteration of the component loop: an if/else-if chain on the type
tags, overwriting the matched category field unconditionally. -/
def applyComponent (acc : ClientAddressDetails) (c : AddressComponent) :
    ClientAddressDetails :=
  if c.types.contains "route" then
    { acc with street := c.long_name }
  else if c.types.contains "locality" || c.types.contains "sublocality" then
    { acc with city := c.long_name }
  else if c.types.contains "administrative_area_level_1" then
    { acc with state := c.long_name }
  else if c.types.contains "postal_code" then
    { acc with postcode := c.long_name }
  else if c.types.contains "country" then
    { acc with country := c.long_name }
  else acc

/-- The `addressDetails` computation of `fetchGeocodeWithDelay`:
initialize from `formatted_address` and fold the component loop over
`address_components` of the first result. -/
def parseAddressComponents (formatted_address : Option String)
    (cs : List AddressComponent) : ClientAddressDetails :=
  cs.foldl applyComponent
    { formattedAddress := orFalsy formatted_address "Address not found"
      street := "", city := "", state := "", postcode := "", country := "" }

/-- The five categories of the component loop. -/
inductive AddrCat where
  | street | city | state | postcode | country
deriving DecidableEq

/-- The category a component is assigned to by the else-if chain (the
first matching tag test wins within one component). -/
def catOf (c : AddressComponent) : Option AddrCat :=
  if c.types.contains "route" then some AddrCat.street
  else if c.types.contains "locality" || c.types.contains "sublocality" then some AddrCat.city
  else if c.types.contains "administrative_area_level_1" then some AddrCat.state
  else if c.types.contains "postal_code" then some AddrCat.postcode
  else if c.types.contains "country" then some AddrCat.country
  else none

/-- The long name of the LAST component of `cs` assigned to category
`cat`, if any. -/
def lastAssigned (cat : AddrCat) (cs : List AddressComponent) : Option String :=
  (cs.reverse.find? fun c => decide (catOf c = some cat)).map AddressComponent.long_name

/-! ## Startup -/

inductive StartupOutcome where
  | exited (code : Nat)
  | listening (port : Nat)
deriving DecidableEq

/-- Truthiness of a `process.env` entry: absent or empty is falsy. -/
def envTruthy : Option String → Bool
  | none => false
  | some s => if s = "" then false else true

/-- The startup sequence of src/server.js: the `GEOAPIFY_API_KEY` guard
(lines 10-13, `process.exit(1)` when the key is falsy), the geocoder
construction try/catch (lines 16-33), then the `app.listen` try/catch
(lines 172-179).  `geocoderInitOk` and `bindOk` model whether those two
steps throw. -/
def startup (geoapifyKey : Option String) (geocoderInitOk bindOk : Bool)
    (port : Nat) : StartupOutcome :=
  if envTruthy geoapifyKey = false then StartupOutcome.exited 1
  else if geocoderInitOk = false then StartupOutcome.exited 1
  else if bindOk = false then StartupOutcome.exited 1
  else StartupOutcome.listening port

/-- A coordinate body field is rejected by the validation when it is
absent, JS-falsy, or coerces to `NaN`. -/
def coordRejected (v : Option JsPrim) : Prop :=
  match v with
  | none => True
  | some x => jsTruthy x = false ∨ jsIsNaN x = true

/-! ## Helper lemmas -/

theorem orFalsy_some_empty (s : String) : orFalsy (some s) "" = s := by
  by_cases h : s = "" <;> simp [orFalsy, h]

theorem coordsValid_some (lat lon : JsPrim)
    (h : coordsValid (some lat) (some lon) = true) :
    (!jsTruthy lat || !jsTruthy lon || jsIsNaN lat || jsIsNaN lon) = false := by
  simpa [coordsValid] using h

/-! ## Claim C1 -/

/-- Claim C1, counterexample: with valid coordinates and a provider stub
returning one result whose `formatted` field is the empty string, the 200
response carries `formattedAddress = "Address not found"`, not the
first-result field value `""` — the mapping is not exact. -/
theorem geocode_formatted_fallback_counterexample :
    geocodeHandler (some (JsPrim.num 12)) (some (JsPrim.num 77))
        (ProviderOutcome.returns (some [⟨some "", some "MG Road",
          some "Bengaluru", some "Karnataka", some "560001", some "India"⟩]))
      = ⟨200, ResBody.geocodeOk (JsPrim.num 12) (JsPrim.num 77)
          "Address not found" "MG Road" "Bengaluru" "Karnataka" "560001"
          "India"⟩
    ∧ ("Address not found" : String) ≠ "" := by
  constructor
  · rfl
  · decide

/-- Claim C1, amended: when the request passes coordinate validation and
the provider returns at least one result whose `formatted` field is
present and nonempty and whose `street`, `city`, `state`, `postcode`,
`country` fields are present, the response is 200 with exactly the eight
payload fields, the coordinates echoed unchanged and the six address
fields equal to those of the first result. -/
theorem geocode_success_field_mapping (lat lon : JsPrim) (r : GeoResult)
    (rs : List GeoResult) (f st ci sa pc co : String)
    (hval : coordsValid (some lat) (some lon) = true)
    (hf : r.formatted = some f) (hfne : f ≠ "")
    (hst : r.street = some st) (hci : r.city = some ci)
    (hsa : r.state = some sa) (hpc : r.postcode = some pc)
    (hco : r.country = some co) :
    geocodeHandler (some lat) (some lon)
        (ProviderOutcome.returns (some (r :: rs)))
      = ⟨200, ResBody.geocodeOk lat lon f st ci sa pc co⟩ := by
  have hX := coordsValid_some lat lon hval
  simp [geocodeHandler, hX, hf, hst, hci, hsa, hpc, hco, orFalsy, hfne,
    orFalsy_some_empty]
  exact ⟨fun h => h.symm, fun h => h.symm, fun h => h.symm, fun h => h.symm,
    fun h => h.symm⟩

/-- Witness for `geocode_success_field_mapping` at a concrete request. -/
theorem geocode_success_field_mapping_witness :
    geocodeHandler (some (JsPrim.num 12)) (some (JsPrim.num 77))
        (ProviderOutcome.returns (some [⟨some "12 MG Road", some "MG Road",
          some "Bengaluru", some "Karnataka", some "560001", some "India"⟩]))
      = ⟨200, ResBody.geocodeOk (JsPrim.num 12) (JsPrim.num 77)
          "12 MG Road" "MG Road" "Bengaluru" "Karnataka" "560001" "India"⟩ :=
  geocode_success_field_mapping (JsPrim.num 12) (JsPrim.num 77)
    ⟨some "12 MG Road", some "MG Road", some "Bengaluru", some "Karnataka",
      some "560001", some "India"⟩ [] "12 MG Road" "MG Road" "Bengaluru"
    "Karnataka" "560001" "India" (by decide) rfl (by decide) rfl rfl rfl rfl
    rfl

/-! ## Claim C2 -/

/-- Claim C2, counterexample: `latitude = 0` is present and numeric
(`isNaN` is false on it), yet the handler responds 400. -/
theorem geocode_zero_numeric_400_counterexample :
    jsIsNaN (JsPrim.num 0) = false ∧
    geocodeHandler (some (JsPrim.num 0)) (some (JsPrim.num 77))
        (ProviderOutcome.returns (some [⟨some "a", some "b", some "c",
          some "d", some "e", some "f"⟩]))
      = ⟨400, ResBody.errorBody "Invalid or missing coordinates"⟩ := by
  constructor
  · rfl
  · rfl

/-- Claim C2, amended: the response is 400 if and only if latitude or
longitude is absent, JS-falsy (in particular `0`), or not numeric under JS
number coercion (in particular `"abc"`). -/
theorem geocode_status_400_iff (latitude longitude : Option JsPrim)
    (provider : ProviderOutcome) :
    (geocodeHandler latitude longitude provider).status = 400 ↔
      coordRejected latitude ∨ coordRejected longitude := by
  cases latitude with
  | none => simp [geocodeHandler, coordRejected]
  | some lat =>
    cases longitude with
    | none => simp [geocodeHandler, coordRejected]
    | some lon =>
      simp only [geocodeHandler, coordRejected]
      by_cases hX :
          (!jsTruthy lat || !jsTruthy lon || jsIsNaN lat || jsIsNaN lon)
            = true
      · have hd := hX
        simp only [Bool.or_eq_true, Bool.not_eq_true'] at hd
        simp only [hX, if_true]
        constructor
        · intro _
          rcases hd with ((h | h) | h) | h
          · exact Or.inl (Or.inl h)
          · exact Or.inr (Or.inl h)
          · exact Or.inl (Or.inr h)
          · exact Or.inr (Or.inr h)
        · intro _
          trivial
      · have hd : (!jsTruthy lat || !jsTruthy lon || jsIsNaN lat
            || jsIsNaN lon) = false := by
          simpa using hX
        simp only [Bool.or_eq_false_iff, Bool.not_eq_false'] at hd
        obtain ⟨⟨⟨h1, h2⟩, h3⟩, h4⟩ := hd
        rw [if_neg hX]
        cases provider with
        | throws msg => simp [h1, h2, h3, h4]
        | returns result =>
          cases result with
          | none => simp [h1, h2, h3, h4]
          | some l =>
            cases l with
            | nil => simp [h1, h2, h3, h4]
            | cons r rs => simp [h1, h2, h3, h4]

/-- Witness for `geocode_status_400_iff`: the spec example
`latitude = "abc"` yields 400. -/
theorem geocode_status_400_iff_witness :
    (geocodeHandler (some (JsPrim.str "abc")) (some (JsPrim.num 77))
        (ProviderOutcome.returns (some []))).status = 400 :=
  (geocode_status_400_iff (some (JsPrim.str "abc")) (some (JsPrim.num 77))
      (ProviderOutcome.returns (some []))).mpr
    (Or.inl (Or.inr (by decide)))

/-! ## Claim C3 -/

/-- Claim C3: whenever the provider is reached (the coordinates pass
validation) and returns an absent or empty result array, the response is
404 with body `{ error: "Address not found" }`, which carries no address
fields. -/
theorem geocode_empty_result_404 (latitude longitude : Option JsPrim)
    (result : Option (List GeoResult))
    (hval : coordsValid latitude longitude = true)
    (hempty : result = none ∨ result = some []) :
    geocodeHandler latitude longitude (ProviderOutcome.returns result)
      = ⟨404, ResBody.errorBody "Address not found"⟩ := by
  cases latitude with
  | none => simp [coordsValid] at hval
  | some lat =>
    cases longitude with
    | none => simp [coordsValid] at hval
    | some lon =>
      have hX := coordsValid_some lat lon hval
      rcases hempty with h | h <;> subst h <;> simp [geocodeHandler, hX]

/-- Witness for `geocode_empty_result_404` at a concrete request. -/
theorem geocode_empty_result_404_witness :
    geocodeHandler (some (JsPrim.num 12)) (some (JsPrim.num 77))
        (ProviderOutcome.returns (some []))
      = ⟨404, ResBody.errorBody "Address not found"⟩ :=
  geocode_empty_result_404 (some (JsPrim.num 12)) (some (JsPrim.num 77))
    (some []) (by decide) (Or.inr rfl)

/-! ## Claim C4 -/

/-- Claim C4: whenever the provider is reached and its call throws, the
handler catches the exception and responds 500 with an `error` field and a
`details` field carrying the thrown message; no other outcome is
possible. -/
theorem geocode_provider_throw_500 (latitude longitude : Option JsPrim)
    (msg : String)
    (hval : coordsValid latitude longitude = true) :
    geocodeHandler latitude longitude (ProviderOutcome.throws msg)
      = ⟨500, ResBody.errorDetails "Failed to geocode location" msg⟩ := by
  cases latitude with
  | none => simp [coordsValid] at hval
  | some lat =>
    cases longitude with
    | none => simp [coordsValid] at hval
    | some lon =>
      have hX := coordsValid_some lat lon hval
      simp [geocodeHandler, hX]

/-- Witness for `geocode_provider_throw_500` at a concrete request. -/
theorem geocode_provider_throw_500_witness :
    geocodeHandler (some (JsPrim.num 12)) (some (JsPrim.num 77))
        (ProviderOutcome.throws "socket hang up")
      = ⟨500, ResBody.errorDetails "Failed to geocode location"
          "socket hang up"⟩ :=
  geocode_provider_throw_500 (some (JsPrim.num 12)) (some (JsPrim.num 77))
    "socket hang up" (by decide)

/-! ## Claim C10 -/

/-- Claim C10: a body whose latitude or longitude is the number 0 —
present and numeric — is rejected with 400
`{ error: "Invalid or missing coordinates" }` by the truthiness check,
whatever the provider would have answered. -/
theorem geocode_zero_coordinate_400 (latitude longitude : Option JsPrim)
    (provider : ProviderOutcome)
    (h : latitude = some (JsPrim.num 0) ∨ longitude = some (JsPrim.num 0)) :
    geocodeHandler latitude longitude provider
      = ⟨400, ResBody.errorBody "Invalid or missing coordinates"⟩ := by
  have h0 : jsTruthy (JsPrim.num 0) = false := by decide
  rcases h with h | h
  · subst h
    cases longitude with
    | none => rfl
    | some lon => simp [geocodeHandler, h0]
  · subst h
    cases latitude with
    | none => rfl
    | some lat => simp [geocodeHandler, h0]

/-- Witness for `geocode_zero_coordinate_400`: the equator with a valid
longitude is rejected. -/
theorem geocode_zero_coordinate_400_witness :
    geocodeHandler (some (JsPrim.num 0)) (some (JsPrim.num 77))
        (ProviderOutcome.returns (some [⟨some "a", some "b", some "c",
          some "d", some "e", some "f"⟩]))
      = ⟨400, ResBody.errorBody "Invalid or missing coordinates"⟩ :=
  geocode_zero_coordinate_400 (some (JsPrim.num 0)) (some (JsPrim.num 77))
    (ProviderOutcome.returns (some [⟨some "a", some "b", some "c",
      some "d", some "e", some "f"⟩])) (Or.inl rfl)

/-! ## Claim C5 -/

theorem applyComponent_eq_catOf (acc : ClientAddressDetails)
    (c : AddressComponent) :
    applyComponent acc c =
      match catOf c with
      | some AddrCat.street => { acc with street := c.long_name }
      | some AddrCat.city => { acc with city := c.long_name }
      | some AddrCat.state => { acc with state := c.long_name }
      | some AddrCat.postcode => { acc with postcode := c.long_name }
      | some AddrCat.country => { acc with country := c.long_name }
      | none => acc := by
  unfold applyComponent catOf
  split_ifs <;> rfl

theorem lastAssigned_nil (cat : AddrCat) : lastAssigned cat [] = none := rfl

theorem lastAssigned_append_singleton (cat : AddrCat)
    (cs : List AddressComponent) (c : AddressComponent) :
    lastAssigned cat (cs ++ [c])
      = if catOf c = some cat then some c.long_name
        else lastAssigned cat cs := by
  unfold lastAssigned
  rw [List.reverse_append]
  simp only [List.reverse_cons, List.reverse_nil, List.nil_append,
    List.singleton_append, List.find?_cons]
  by_cases h : catOf c = some cat
  · simp [h]
  · simp [h]

/-- Characterization of the component fold: each category field of the
accumulated record holds the long name of the last component assigned to
that category, the initial value when there is none, and the
`formattedAddress` field is never touched by the loop. -/
theorem foldl_applyComponent_spec (cs : List AddressComponent)
    (acc : ClientAddressDetails) :
    cs.foldl applyComponent acc =
      { formattedAddress := acc.formattedAddress
        street := (lastAssigned AddrCat.street cs).getD acc.street
        city := (lastAssigned AddrCat.city cs).getD acc.city
        state := (lastAssigned AddrCat.state cs).getD acc.state
        postcode := (lastAssigned AddrCat.postcode cs).getD acc.postcode
        country := (lastAssigned AddrCat.country cs).getD acc.country } := by
  induction cs using List.reverseRecOn with
  | nil => simp [lastAssigned_nil]
  | append_singleton cs c ih =>
    rw [List.foldl_append, List.foldl_cons, List.foldl_nil, ih,
      applyComponent_eq_catOf]
    cases h : catOf c with
    | none =>
      simp [lastAssigned_append_singleton, h]
    | some cat =>
      cases cat <;>
        simp [lastAssigned_append_singleton, h]

/-- Claim C5, counterexample: two components both tagged `route`; the
parsed street is the long name of the second (last) one, not of the first
match. -/
theorem client_first_match_counterexample :
    (parseAddressComponents (some "1 Main St")
        [⟨"First Route", ["route"]⟩, ⟨"Second Route", ["route"]⟩]).street
      = "Second Route" ∧ ("Second Route" : String) ≠ "First Route" := by
  constructor
  · rfl
  · decide

/-- Claim C5, amended: components are categorized by type tags exactly as
claimed (`route` → street, `locality`/`sublocality` → city,
`administrative_area_level_1` → state, `postal_code` → postcode,
`country` → country, the first matching tag test winning within a single
component), but when multiple components fall in one category the LAST
one in iteration order wins, each field defaulting to `""` when no
component matches. -/
theorem client_last_match_per_category (formatted_address : Option String)
    (cs : List AddressComponent) :
    parseAddressComponents formatted_address cs =
      { formattedAddress := orFalsy formatted_address "Address not found"
        street := (lastAssigned AddrCat.street cs).getD ""
        city := (lastAssigned AddrCat.city cs).getD ""
        state := (lastAssigned AddrCat.state cs).getD ""
        postcode := (lastAssigned AddrCat.postcode cs).getD ""
        country := (lastAssigned AddrCat.country cs).getD "" } := by
  unfold parseAddressComponents
  rw [foldl_applyComponent_spec]

/-! ## Claim C6 -/

set_option maxRecDepth 8192 in
/-- Claim C6: for every path id the location handler responds 200 with the
fixed HTML document (it begins with the doctype after a line break and
indentation) in which the id appears interpolated at exactly its two
occurrences inside the embedded client script; no validation touches the
id. -/
theorem location_page_always_200 (id : String) :
    locationHandler id
      = ⟨200, ResBody.htmlBody
          (locationHtmlA ++ id ++ locationHtmlB ++ id ++ locationHtmlC)⟩ ∧
    locationHtmlA.take 22 = "\n      <!DOCTYPE html>" :=
  ⟨rfl, by decide⟩

/-! ## Claim C7 -/

theorem byteToHex_length (n : Nat) : (byteToHex n).length = 2 := rfl

/-- Claim C7: the generate-link response is 200 with body `{ link }` where
the link is exactly `https://`, the request host header, `/location/`, and
the freshly drawn version-4 UUID (a 36-character identifier). -/
theorem generate_link_shape (host : String) (b : Fin 16 → Nat) :
    generateLinkHandler host b
      = ⟨200, ResBody.linkBody
          ("https://" ++ host ++ "/location/" ++ uuidv4 b)⟩ ∧
    (uuidv4 b).length = 36 := by
  refine ⟨rfl, ?_⟩
  simp [uuidv4, String.length_append, byteToHex_length]
  decide

/-! ## Claim C8 -/

theorem string_append_data (a b : String) :
    (a ++ b).data = a.data ++ b.data := rfl

/-- Claim C8: the link construction is injective in the identifier — two
generate-link calls on the same host whose drawn identifiers differ return
different links. -/
theorem link_injective_in_identifier (host u1 u2 : String) (h : u1 ≠ u2) :
    mkLink host u1 ≠ mkLink host u2 := by
  intro he
  apply h
  have hd : ("https://" ++ host ++ "/location/").data ++ u1.data
      = ("https://" ++ host ++ "/location/").data ++ u2.data := by
    have hc := congrArg String.data he
    simpa [mkLink, string_append_data] using hc
  exact congrArg String.mk (List.append_cancel_left hd)

/-- Witness for `link_injective_in_identifier` at two concrete
identifiers. -/
theorem link_injective_in_identifier_witness :
    mkLink "example.com" "1111" ≠ mkLink "example.com" "2222" :=
  link_injective_in_identifier "example.com" "1111" "2222" (by decide)

/-! ## Claim C9 -/

/-- Claim C9: with `GEOAPIFY_API_KEY` absent from the environment the
startup sequence exits with code 1, whatever the geocoder construction and
the bind step would have done: the process never reaches the listening
state, so the server never accepts a request without a configured key. -/
theorem missing_key_exits_before_listen (geocoderInitOk bindOk : Bool)
    (port : Nat) :
    startup none geocoderInitOk bindOk port = StartupOutcome.exited 1 := rfl

end LocationApi
